import Mathlib

/-!
Verification of the campaign simulation engine in `campaign_hero.py`.

Shallow embedding conventions:
* Python floats are modelled as rationals (`ℚ`); Python ints as `ℤ`.
  The candidate's `fatigue` field is declared `int` in the dataclass but the
  code only ever assigns float results of `rclamp` to it, so it is a `ℚ` here.
* Dictionaries keyed by the six fixed demographic keys are modelled by the
  structure `DemoMap` with one rational field per key; every dictionary the
  program builds for these keys is total on the six keys.
* Randomness is passed in explicitly: `rl mu sigma` stands for the value the
  call `roll(mu, sigma)` returned, uniform draws (`random.random()`) are `ℚ`
  parameters, and `random.choice` picks are `Fin` indices into the pools.
* Console output (`print`/`input`) is I/O and is not part of the state; the
  append-only `history` list is modelled.  Where the source formats numbers
  into log strings (`f"{x*100:.1f}%"`), the rendering is simplified to an
  exact rational rendering (`ratStr`): no verified claim depends on the
  rendered digits, only on which entries are appended.
* `raise SystemExit` at the two terminal outcomes is modelled by the
  `WeekOutcome` sum type returned by `phase_transition` / `advance_week`.
* Decimal constants from the source (`0.15`, `0.010`, …) are written as the
  equal explicit fractions (`(15/100)`, `(10/1000)`, …) because scientific
  literals on `ℚ` are irreducible here and would block kernel evaluation of
  the concrete witnesses.
-/

namespace CampaignHero

/-- The six demographic keys of `DEMO_KEYS`. -/
inductive Demo
  | working
  | college
  | rural
  | urban
  | seniors
  | youth
deriving DecidableEq, Repr

/-- `DEMO_KEYS = ["working", "college", "rural", "urban", "seniors", "youth"]`. -/
def DEMO_KEYS : List Demo :=
  [Demo.working, Demo.college, Demo.rural, Demo.urban, Demo.seniors, Demo.youth]

/-- A stance vector on the four policy axes (0..100 each in the tables). -/
structure Stance where
  econ : ℤ
  social : ℤ
  governance : ℤ
  tone : ℤ
deriving DecidableEq, Repr

/-- `DEMO_IDEALS`: ideal policy stances by demographic. -/
def DEMO_IDEALS : Demo → Stance
  | Demo.working => ⟨35, 55, 65, 65⟩
  | Demo.college => ⟨45, 20, 40, 25⟩
  | Demo.rural => ⟨55, 70, 60, 70⟩
  | Demo.urban => ⟨40, 15, 45, 35⟩
  | Demo.seniors => ⟨50, 60, 70, 30⟩
  | Demo.youth => ⟨30, 10, 35, 60⟩

/-- `PARTY_ARCHETYPES`, as the lookup the code performs: `"D"` and `"R"` are
the two named archetypes, everything else resolves to `"IND"`. -/
def PARTY_ARCHETYPES (p : String) : Stance :=
  if p = "D" then ⟨40, 25, 45, 40⟩
  else if p = "R" then ⟨70, 75, 65, 65⟩
  else ⟨50, 50, 50, 45⟩

/-- `DEMO_PARTY_LOYALTY`. -/
def DEMO_PARTY_LOYALTY : Demo → ℚ
  | Demo.working => (9/10)
  | Demo.college => (11/10)
  | Demo.rural => 1
  | Demo.urban => 1
  | Demo.seniors => 1
  | Demo.youth => (8/10)

/-- `DEMO_SENSITIVITY`. -/
def DEMO_SENSITIVITY : Demo → ℚ
  | Demo.working => 1
  | Demo.college => (110/100)
  | Demo.rural => 1
  | Demo.urban => (105/100)
  | Demo.seniors => (95/100)
  | Demo.youth => (110/100)

/-- A total map from the six demographic keys to rationals (a Python dict
whose keys are exactly `DEMO_KEYS`). -/
structure DemoMap where
  working : ℚ
  college : ℚ
  rural : ℚ
  urban : ℚ
  seniors : ℚ
  youth : ℚ
deriving DecidableEq, Repr

/-- Dictionary lookup on a `DemoMap`. -/
def DemoMap.get (m : DemoMap) : Demo → ℚ
  | Demo.working => m.working
  | Demo.college => m.college
  | Demo.rural => m.rural
  | Demo.urban => m.urban
  | Demo.seniors => m.seniors
  | Demo.youth => m.youth

/-- Build a `DemoMap` from a function on keys (a dict comprehension). -/
def DemoMap.ofFun (f : Demo → ℚ) : DemoMap :=
  ⟨f Demo.working, f Demo.college, f Demo.rural, f Demo.urban, f Demo.seniors, f Demo.youth⟩

/-- The uniform weights `{d: 1.0 / len(DEMO_KEYS) for d in DEMO_KEYS}`. -/
def DemoMap.uniform : DemoMap :=
  ⟨1 / 6, 1 / 6, 1 / 6, 1 / 6, 1 / 6, 1 / 6⟩

/-- The `District` dataclass. -/
structure District where
  name : String
  partisan_lean : ℚ
  media_intensity : ℚ
  volatility : ℚ
  demos : DemoMap
  turnout_base : ℚ
deriving DecidableEq, Repr

/-- The `Candidate` dataclass.  `fatigue` is a rational because the code only
ever stores results of `rclamp` (floats) in it. -/
structure Candidate where
  name : String
  party : String
  charisma : ℤ
  discipline : ℤ
  empathy : ℤ
  stamina : ℤ
  cash : ℤ := 50
  momentum : ℚ := 0
  fatigue : ℚ := 0
  econ : ℤ := 50
  social : ℤ := 50
  governance : ℤ := 50
  tone : ℤ := 50
deriving DecidableEq, Repr

/-- `Candidate.clamp` (the source writes the momentum bounds as `-10.0`,
`10.0`; the rationals are the same). -/
def Candidate.clamp (c : Candidate) : Candidate :=
  { c with
    cash := max 0 c.cash
    momentum := max (-10 : ℚ) (min 10 c.momentum)
    fatigue := max 0 (min 10 c.fatigue)
    econ := max 0 (min 100 c.econ)
    social := max 0 (min 100 c.social)
    governance := max 0 (min 100 c.governance)
    tone := max 0 (min 100 c.tone) }

/-- The `Opponent` dataclass. -/
structure Opponent where
  name : String
  archetype : String
  skill : ℤ
  scandal_risk : ℚ
deriving DecidableEq, Repr

/-- The `GameState` dataclass. -/
structure GameState where
  district : District
  you : Candidate
  opponent : Opponent
  week : ℤ := 1
  phase : String := "PRIMARY"
  weeks_in_phase : ℤ := 6
  support_by_demo : DemoMap := ⟨0, 0, 0, 0, 0, 0⟩
  prepared : Bool := false
  name_id : ℚ := (20/100)
  enthusiasm : ℚ := (50/100)
  earned_media : ℚ := 0
  history : List String := []
deriving DecidableEq, Repr

/-- `GameState.log`: append one entry to the event history. -/
def GameState.log (gs : GameState) (msg : String) : GameState :=
  { gs with history := gs.history ++ [msg] }

/-- `rclamp(x, lo, hi) = max(lo, min(hi, x))`. -/
def rclamp (x lo hi : ℚ) : ℚ :=
  max lo (min hi x)

/-- Exact rendering of a rational into a string.  Stands in for Python's float
formatting in log messages; the verified claims never depend on the digits. -/
def ratStr (x : ℚ) : String :=
  toString x.num ++ "/" ++ toString x.den

/-- `pct(x)`: percent rendering used in log strings (formatting simplified). -/
def pct (x : ℚ) : String :=
  ratStr (x * 100) ++ "%"

/-- `platform_fit_score(candidate, demo) ∈ [-1, +1]`. -/
def platform_fit_score (candidate : Candidate) (demo : Demo) : ℚ :=
  let ideals := DEMO_IDEALS demo
  let dist : ℚ :=
    ((|candidate.econ - ideals.econ| : ℤ) + (|candidate.social - ideals.social| : ℤ) +
      (|candidate.governance - ideals.governance| : ℤ) + (|candidate.tone - ideals.tone| : ℤ) : ℤ)
      / 4
  let mismatch := dist / 100
  let fit := 1 - mismatch
  (fit * 2) - 1

/-- `party_platform_mismatch(c) ∈ [0, 1]`: `(c.party or "IND").upper()`, falling
back to `"IND"` when the result is not a key of `PARTY_ARCHETYPES`. -/
def party_platform_mismatch (c : Candidate) : ℚ :=
  let party0 := if c.party = "" then "IND" else c.party
  let party1 := party0.toUpper
  let party := if party1 = "D" ∨ party1 = "R" ∨ party1 = "IND" then party1 else "IND"
  let arch := PARTY_ARCHETYPES party
  let dist : ℚ :=
    ((|c.econ - arch.econ| : ℤ) + (|c.social - arch.social| : ℤ) +
      (|c.governance - arch.governance| : ℤ) + (|c.tone - arch.tone| : ℤ) : ℤ) / 4
  dist / 100

/-- `initial_support_by_demo(district, you)`. -/
def initial_support_by_demo (district : District) (you : Candidate) : DemoMap :=
  let mismatch := party_platform_mismatch you
  let max_penalty : ℚ := (4/100)
  DemoMap.ofFun fun demo =>
    let fit := platform_fit_score you demo * DEMO_SENSITIVITY demo
    let base := (47/100) + district.partisan_lean * (35/100)
    let demo_support := base + (6/100) * fit
    let loyalty := DEMO_PARTY_LOYALTY demo
    let size := (6/10) + (8/10) * district.demos.get demo
    rclamp (demo_support - mismatch * max_penalty * loyalty * size) (20/100) (80/100)

/-- `overall_support(district, support_by_demo)`. -/
def overall_support (district : District) (support_by_demo : DemoMap) : ℚ :=
  (DEMO_KEYS.map fun d => district.demos.get d * support_by_demo.get d).sum

/-- `apply_support_shift(gs, delta, reason, demo_weights)`: the Support Ledger
shift operator.  `demo_weights = none` is Python's `None` default (uniform). -/
def apply_support_shift (gs : GameState) (delta : ℚ) (reason : String)
    (demo_weights : Option DemoMap) : GameState :=
  let amp := gs.district.volatility * (1 + (15/100) * gs.district.media_intensity)
  let pull := gs.district.partisan_lean * (10/1000)
  let w := demo_weights.getD DemoMap.uniform
  let sup := DemoMap.ofFun fun d =>
    rclamp (gs.support_by_demo.get d + ((delta * amp * w.get d) + pull * gs.district.demos.get d))
      (20/100) (80/100)
  let gs1 := { gs with support_by_demo := sup }
  gs1.log (reason ++ " => support " ++ pct (overall_support gs1.district gs1.support_by_demo))

/-- `fundraise(gs, donor_type)`.  `rl mu sigma` is the value `roll(mu, sigma)`
returned; `int(max(0, x))` truncates the non-negative float, i.e. floors it. -/
def fundraise (gs : GameState) (donor_type : String) (rl : ℚ → ℚ → ℚ) : GameState :=
  let dt := donor_type.toLower.trim
  let base : ℚ := 12 + (gs.you.discipline : ℚ) * (25/100) + gs.name_id * 20
  let gs1 :=
    if dt = "corporate" then
      let cash : ℤ := ⌊max 0 (rl (base + 15) 6)⌋
      let gs' := { gs with
        you := { gs.you with cash := gs.you.cash + cash, momentum := gs.you.momentum - (4/10) }
        enthusiasm := rclamp (gs.enthusiasm - (3/100)) (2/10) (9/10) }
      gs'.log ("Fundraising (corporate): +$" ++ toString cash ++ "k, enthusiasm down a bit.")
    else if dt = "grassroots" then
      let cash : ℤ := ⌊max 0 (rl (base - 3) 5)⌋
      let gs' := { gs with
        you := { gs.you with cash := gs.you.cash + cash, momentum := gs.you.momentum + (3/10) }
        enthusiasm := rclamp (gs.enthusiasm + (3/100)) (2/10) (9/10) }
      gs'.log ("Fundraising (grassroots): +$" ++ toString cash ++ "k, enthusiasm up.")
    else
      let cash : ℤ := ⌊max 0 (rl base 5)⌋
      let gs' := { gs with you := { gs.you with cash := gs.you.cash + cash } }
      gs'.log ("Fundraising (mixed): +$" ++ toString cash ++ "k.")
  let gs2 := { gs1 with you := { gs1.you with fatigue := rclamp (gs1.you.fatigue + 1) 0 10 } }
  { gs2 with you := gs2.you.clamp }

/-- `canvass(gs)`.  The function draws no randomness. -/
def canvass (gs : GameState) : GameState :=
  if gs.you.cash < 8 then
    apply_support_shift
      (gs.log ("Tried to canvass, but you’re too broke to field a ground operation."))
      (-(3/1000)) ("Ground game fizzles") none
  else
    let gain := ((4/1000) + gs.enthusiasm * (6/1000)) * (1 + (gs.you.empathy : ℚ) / 140)
    let gs1 := { gs with
      you := { gs.you with
        cash := gs.you.cash - 8
        momentum := gs.you.momentum + (2/10)
        fatigue := rclamp (gs.you.fatigue + (12/10)) 0 10 }
      name_id := rclamp (gs.name_id + (15/1000)) 0 1
      enthusiasm := rclamp (gs.enthusiasm + (2/100)) (2/10) (9/10) }
    let field_weights : DemoMap :=
      { working := (35/100), college := (3/100), rural := (15/100), urban := (15/100),
        seniors := (2/100), youth := (30/100) }
    let gs2 := apply_support_shift gs1 gain ("Canvassing + field") (some field_weights)
    gs2.log ("Canvassing cost $8k. Name ID now " ++ pct gs2.name_id)

/-- `polling(gs)`: the memo itself is console output; the state effect is the
cash cost and the log entry (or just the failure log when unaffordable). -/
def polling (gs : GameState) : GameState :=
  if gs.you.cash < 6 then
    gs.log ("Polling: you can’t afford a real poll. You rely on vibes and anecdotes.")
  else
    let gs1 := { gs with you := { gs.you with cash := gs.you.cash - 6 } }
    gs1.log ("Polling conducted (-$6k). You review a demographic memo.")

/-- `adjust_policy(gs, axis, direction)`. -/
def adjust_policy (gs : GameState) (axis : String) (direction : ℤ) : GameState :=
  let ax := axis.toLower.trim
  let step : ℤ := 8 * direction
  if ax = "econ" ∨ ax = "social" ∨ ax = "governance" ∨ ax = "tone" then
    let old : ℤ :=
      if ax = "econ" then gs.you.econ
      else if ax = "social" then gs.you.social
      else if ax = "governance" then gs.you.governance
      else gs.you.tone
    let you1 :=
      if ax = "econ" then { gs.you with econ := gs.you.econ + step }
      else if ax = "social" then { gs.you with social := gs.you.social + step }
      else if ax = "governance" then { gs.you with governance := gs.you.governance + step }
      else { gs.you with tone := gs.you.tone + step }
    let you2 := you1.clamp
    let newv : ℤ :=
      if ax = "econ" then you2.econ
      else if ax = "social" then you2.social
      else if ax = "governance" then you2.governance
      else you2.tone
    let gs1 := { gs with you := you2 }
    let msg : String :=
      if ax = "tone" then
        if direction > 0 then
          "You lean sharper and more combative. Clips potential rises… and so does backlash risk."
        else
          "You lean more hopeful and unifying. Fewer dunks, more trust."
      else
        "Policy shift on " ++ ax ++ ": " ++ toString old ++ " -> " ++ toString newv ++ "."
    let gs2 := gs1.log msg
    { gs2 with
      you := { gs2.you with
        momentum := gs2.you.momentum + (15/100)
        fatigue := rclamp (gs2.you.fatigue + (8/10)) 0 10 } }
  else
    gs.log ("Policy team is confused. Nothing changes.")

/-- `rest(gs)`. -/
def rest (gs : GameState) : GameState :=
  let gs1 := { gs with
    you := { gs.you with
      fatigue := rclamp (gs.you.fatigue - 4) 0 10
      momentum := gs.you.momentum + (3/10) } }
  gs1.log ("You rest, reset, and do fewer self-inflicted errors this week.")

/-- `prep_debate(gs)`. -/
def prep_debate (gs : GameState) : GameState :=
  let gs1 := { gs with
    you := { gs.you with
      momentum := gs.you.momentum + (10/100)
      fatigue := rclamp (gs.you.fatigue + (9/10)) 0 10 }
    prepared := true }
  gs1.log ("Debate prep: message drills, oppo research, and rehearsed pivots.")

/-- The candidate part of the debate power score, before the prep bonus:
`2.5*charisma + 2.0*discipline + 1.5*empathy + 8.0*momentum - 3.0*fatigue`. -/
def debate_base_power (c : Candidate) : ℚ :=
  (25/10) * (c.charisma : ℚ) + 2 * (c.discipline : ℚ) + (15/10) * (c.empathy : ℚ)
    + 8 * c.momentum - 3 * c.fatigue

/-- `debate(gs)` from the point where `you_power` has been computed.  `rl` is
the `roll` oracle; `u1` and `u2` are the uniform draws deciding the zinger and
its backfire. -/
def debate_with_power (gs : GameState) (you_power : ℚ) (rl : ℚ → ℚ → ℚ) (u1 u2 : ℚ) :
    GameState :=
  let opp_power := (gs.opponent.skill : ℚ) + rl 0 4
  let perf := rl (you_power - opp_power) 6
  let gsa := gs.log ("[DEBUG] debate: you_power=" ++ ratStr you_power ++ " opp_power=" ++
    ratStr opp_power ++ " perf=" ++ ratStr perf ++ " prepared=" ++ toString gs.prepared)
  let zinger_chance := rclamp
    ((10/100) + (gsa.you.charisma : ℚ) / 200 + (gsa.you.tone : ℚ) / 250 +
      (8/100) * (gsa.district.media_intensity - 1)) (5/100) (60/100)
  let zinger := u1 < zinger_chance ∧ perf > -8
  let delta0 : ℚ :=
    if perf > 18 then (20/1000)
    else if perf > 6 then (10/1000)
    else if perf > -6 then 0
    else if perf > -18 then -(10/1000)
    else -(20/1000)
  let headline : String :=
    if perf > 18 then "You dominated the debate."
    else if perf > 6 then "You won the debate."
    else if perf > -6 then "It was a wash."
    else if perf > -18 then "You lost the debate."
    else "You faceplanted on stage."
  let dmom : ℚ :=
    if perf > 18 then (13/10)
    else if perf > 6 then (7/10)
    else if perf > -6 then (1/10)
    else if perf > -18 then -(7/10)
    else -(13/10)
  let gsb := { gsa with you := { gsa.you with momentum := gsa.you.momentum + dmom } }
  let res :=
    if zinger then
      let viral := rclamp
        ((12/100) + (gsb.you.tone : ℚ) / 300 + (gsb.district.media_intensity - 1) * (15/100))
        (8/100) (40/100)
      let gsc := { gsb with earned_media := rclamp (gsb.earned_media + viral) 0 (70/100) }
      let backfire_chance := rclamp
        ((8/100) + (gsc.you.tone : ℚ) / 220 - (gsc.you.empathy : ℚ) / 260) (2/100) (35/100)
      if u2 < backfire_chance then
        (({ gsc with enthusiasm := rclamp (gsc.enthusiasm - (3/100)) (2/10) (9/10) }).log
          ("Your zinger goes viral… but people also call it mean. Some soft support leaks."),
         delta0 - (6/1000))
      else
        (({ gsc with enthusiasm := rclamp (gsc.enthusiasm + (2/100)) (2/10) (9/10) }).log
          ("You land a zinger that becomes a clip machine. Earned media surges."),
         delta0 + (8/1000))
    else (gsb, delta0)
  let zinger_weights : DemoMap :=
    { working := (5/100), college := (25/100), rural := (3/100), urban := (30/100),
      seniors := (2/100), youth := (35/100) }
  let gsd := apply_support_shift res.1 res.2 ("Debate night: " ++ headline)
    (some zinger_weights)
  let gse := { gsd with you := { gsd.you with fatigue := rclamp (gsd.you.fatigue + (15/10)) 0 10 } }
  let gsf := { gse with you := gse.you.clamp }
  { gsf with prepared := false }

/-- `debate(gs)`: reads `prepared`, adds the fixed `6.0` prep bonus when it was
set, then runs the rest of the resolver (which clears the flag at the end). -/
def debate (gs : GameState) (rl : ℚ → ℚ → ℚ) (u1 u2 : ℚ) : GameState :=
  debate_with_power gs (debate_base_power gs.you + (if gs.prepared then 6 else 0))
    rl u1 u2

/-- The amount `paid_media` actually spends (0 on either early return). -/
def paid_media_spend (gs : GameState) : ℤ :=
  if gs.you.cash < 5 then 0
  else
    let affordable := max 0 (gs.you.cash - 5)
    let spend := min 20 (min affordable (gs.you.cash / 2))
    if spend < 3 then 0 else spend

/-- `paid_media(gs)`: the weekly auto-spend.  `int(cash * 0.5)` truncates;
`cash ≥ 5` holds in the body, so it is `cash / 2` on `ℤ`. -/
def paid_media (gs : GameState) : GameState :=
  if gs.you.cash < 5 then gs
  else
    let affordable := max 0 (gs.you.cash - 5)
    let spend := min 20 (min affordable (gs.you.cash / 2))
    if spend < 3 then gs
    else
      let gs1 := { gs with you := { gs.you with cash := gs.you.cash - spend } }
      let eff := ((4/1000) + (spend : ℚ) / 5000) * (1 + gs1.name_id * (4/10))
      let gs2 := apply_support_shift gs1 eff ("Paid media ($" ++ toString spend ++ "k)") none
      gs2.log ("Ads run: spent $" ++ toString spend ++ "k.")

/-- `earned_media_tick(gs)`. -/
def earned_media_tick (gs : GameState) : GameState :=
  if gs.earned_media ≤ 0 then gs
  else
    let bump := (4/1000) * gs.earned_media
    let gs1 := apply_support_shift gs bump ("Earned media tailwind") none
    gs1.log ("Earned media effect this week: +" ++ ratStr (bump * 100) ++ "% support-ish.")

/-- `weekly_decay(gs)`. -/
def weekly_decay (gs : GameState) : GameState :=
  let gs1 := { gs with
    earned_media := gs.earned_media * (35/100)
    enthusiasm := rclamp (gs.enthusiasm - (1/100)) (2/10) (9/10) }
  let you1 := { gs1.you with momentum := gs1.you.momentum * (85/100) }
  let you2 := { you1 with fatigue := rclamp (you1.fatigue - (8/10)) 0 10 }
  { gs1 with you := you2.clamp }

/-- `gen_opponent(phase)`: `i` and `j` are the `random.choice` picks from the
archetype table and the name pool. -/
def gen_opponent (phase : String) (i : Fin 3) (j : Fin 5) : Opponent :=
  let archetypes : List (String × ℤ × ℚ) :=
    if phase = "PRIMARY" then
      [("Local Insider", 45, (25/100)), ("Firebrand", 50, (45/100)), ("Wealthy Self-Funder", 55, (30/100))]
    else
      [("Seasoned Moderate", 62, (20/100)), ("Hardline Ideologue", 65, (35/100)),
        ("Media-Savvy Populist", 68, (45/100))]
  let name_pool : List String :=
    ["Casey Trent", "Morgan Vale", "Jordan Pike", "Riley Hart", "Avery Sloan"]
  let a := archetypes.getD i.val ("", 0, 0)
  { name := name_pool.getD j.val "", archetype := a.1, skill := a.2.1, scandal_risk := a.2.2 }

/-- The outcome of evaluating the end of a week: either the campaign goes on
with the new state, or one of the three terminal endings (`SystemExit` in the
source) is reached. -/
inductive WeekOutcome
  | ongoing (gs : GameState)
  | primary_loss (gs : GameState)
  | general_win (turnout final : ℚ)
  | general_loss (turnout final : ℚ)
deriving DecidableEq, Repr

/-- `phase_transition(gs)`: `i`, `j` are the `gen_opponent` picks used on the
Primary→General branch; `rl` is the `roll` oracle for election day. -/
def phase_transition (gs : GameState) (i : Fin 3) (j : Fin 5) (rl : ℚ → ℚ → ℚ) :
    WeekOutcome :=
  if gs.phase = "PRIMARY" then
    let overall := overall_support gs.district gs.support_by_demo
    if overall < (50/100) then WeekOutcome.primary_loss gs
    else
      let opp := gen_opponent ("GENERAL") i j
      WeekOutcome.ongoing { gs with
        phase := "GENERAL"
        week := 1
        weeks_in_phase := 8
        opponent := opp
        support_by_demo := initial_support_by_demo gs.district gs.you
        earned_media := 0
        history := gs.history ++ ["New opponent: " ++ opp.name ++ " (" ++ opp.archetype ++
          ", skill " ++ toString opp.skill ++ ")"] }
  else
    let turnout := rclamp (gs.district.turnout_base + (gs.enthusiasm - (5/10)) * (10/100) + rl 0 (2/100))
      (35/100) (75/100)
    let overall := overall_support gs.district gs.support_by_demo
    let final := rclamp (overall + rl 0 (15/1000)) 0 1
    if final ≥ (50/100) then WeekOutcome.general_win turnout final
    else WeekOutcome.general_loss turnout final

/-- The tail of `run_week`: `gs.week += 1; if gs.week > gs.weeks_in_phase:
phase_transition(gs)` (the chosen action, passive resolvers, scheduled debate
and weekly decay have already mutated `gs` earlier in `run_week`). -/
def advance_week (gs : GameState) (i : Fin 3) (j : Fin 5) (rl : ℚ → ℚ → ℚ) : WeekOutcome :=
  let gs1 := { gs with week := gs.week + 1 }
  if gs1.week > gs1.weeks_in_phase then phase_transition gs1 i j rl
  else WeekOutcome.ongoing gs1

/-- The documented bounds on the mutable candidate fields (§3 of the spec):
`cash ≥ 0`, `momentum ∈ [-10, 10]`, `fatigue ∈ [0, 10]`, axes in `[0, 100]`. -/
abbrev Candidate.InBounds (c : Candidate) : Prop :=
  0 ≤ c.cash ∧ -10 ≤ c.momentum ∧ c.momentum ≤ 10 ∧
  0 ≤ c.fatigue ∧ c.fatigue ≤ 10 ∧
  0 ≤ c.econ ∧ c.econ ≤ 100 ∧ 0 ≤ c.social ∧ c.social ≤ 100 ∧
  0 ≤ c.governance ∧ c.governance ≤ 100 ∧ 0 ≤ c.tone ∧ c.tone ≤ 100

/-- The documented bounds with the momentum ceiling relaxed to `10.3`: what the
resolvers that add a momentum bonus after (or without) a clamp pass actually
guarantee. -/
abbrev Candidate.InBoundsSlack (c : Candidate) : Prop :=
  0 ≤ c.cash ∧ -10 ≤ c.momentum ∧ c.momentum ≤ (103/10) ∧
  0 ≤ c.fatigue ∧ c.fatigue ≤ 10 ∧
  0 ≤ c.econ ∧ c.econ ≤ 100 ∧ 0 ≤ c.social ∧ c.social ≤ 100 ∧
  0 ≤ c.governance ∧ c.governance ≤ 100 ∧ 0 ≤ c.tone ∧ c.tone ≤ 100

/-! Concrete states for witnesses and counterexamples. -/

/-- A concrete district with uniform demographic weights. -/
def sampleDistrict : District :=
  { name := "IL-10 Lakeshore", partisan_lean := (5/100), media_intensity := 1,
    volatility := 1, demos := ⟨1 / 6, 1 / 6, 1 / 6, 1 / 6, 1 / 6, 1 / 6⟩,
    turnout_base := (55/100) }

/-- A concrete candidate with all fields inside the documented bounds. -/
def sampleCandidate : Candidate :=
  { name := "Alex Candidate", party := "IND", charisma := 10, discipline := 10,
    empathy := 10, stamina := 10 }

/-- A concrete opponent from the Primary archetype table. -/
def sampleOpponent : Opponent :=
  { name := "Casey Trent", archetype := "Local Insider", skill := 45, scandal_risk := (25/100) }

/-- A concrete Primary-phase game state. -/
def sampleState : GameState :=
  { district := sampleDistrict, you := sampleCandidate, opponent := sampleOpponent,
    support_by_demo := ⟨(5/10), (5/10), (5/10), (5/10), (5/10), (5/10)⟩ }

/-- In-bounds state whose momentum sits exactly at the documented ceiling. -/
def gsC2 : GameState := { sampleState with you := { sampleCandidate with momentum := 10 } }

/-- Primary state at the transition with a deliberately odd pre-transition
ledger (all demos at 0.8) and overall support 0.8 ≥ 0.50. -/
def gsC3 : GameState :=
  { sampleState with support_by_demo := ⟨(8/10), (8/10), (8/10), (8/10), (8/10), (8/10)⟩ }

/-- Primary state in the last scheduled week with overall support 0.3. -/
def gsC4 : GameState :=
  { sampleState with week := 6, support_by_demo := ⟨(3/10), (3/10), (3/10), (3/10), (3/10), (3/10)⟩ }

/-- State carrying positive earned media. -/
def gsC6 : GameState := { sampleState with earned_media := (5/10) }

/-- Another state carrying positive earned media. -/
def gsC6w : GameState := { sampleState with earned_media := (25/100) }

/-- State with cash 4, below the paid-media floor. -/
def gsC7 : GameState := { sampleState with you := { sampleCandidate with cash := 4 } }

/-- State with fatigue strictly inside the fatigue band. -/
def gsC9 : GameState := { sampleState with you := { sampleCandidate with fatigue := 5 } }

/-! Helper lemmas shared by the claim theorems. -/

theorem le_rclamp (x lo hi : ℚ) : lo ≤ rclamp x lo hi :=
  le_max_left _ _

theorem rclamp_le (x lo hi : ℚ) (h : lo ≤ hi) : rclamp x lo hi ≤ hi :=
  max_le h (min_le_left _ _)

theorem DemoMap.get_ofFun (f : Demo → ℚ) (d : Demo) : (DemoMap.ofFun f).get d = f d := by
  cases d <;> rfl

@[simp] theorem GameState.log_you (gs : GameState) (msg : String) : (gs.log msg).you = gs.you :=
  rfl

@[simp] theorem apply_support_shift_you (gs : GameState) (delta : ℚ) (reason : String)
    (w : Option DemoMap) : (apply_support_shift gs delta reason w).you = gs.you :=
  rfl

theorem Candidate.clamp_InBounds (c : Candidate) : c.clamp.InBounds :=
  ⟨le_max_left _ _, le_max_left _ _, max_le (by norm_num) (min_le_left _ _),
    le_max_left _ _, max_le (by norm_num) (min_le_left _ _),
    le_max_left _ _, max_le (by norm_num) (min_le_left _ _),
    le_max_left _ _, max_le (by norm_num) (min_le_left _ _),
    le_max_left _ _, max_le (by norm_num) (min_le_left _ _),
    le_max_left _ _, max_le (by norm_num) (min_le_left _ _)⟩

theorem Candidate.InBounds.slack {c : Candidate} (h : c.InBounds) : c.InBoundsSlack := by
  obtain ⟨h1, h2, h3, h4, h5, h6, h7, h8, h9, h10, h11, h12, h13⟩ := h
  exact ⟨h1, h2, by linarith, h4, h5, h6, h7, h8, h9, h10, h11, h12, h13⟩

theorem Candidate.clamp_bonus_slack (c : Candidate) (b a : ℚ) (hb0 : 0 ≤ b) (hb : b ≤ (3/10)) :
    ({ c.clamp with
        momentum := c.clamp.momentum + b
        fatigue := rclamp (c.clamp.fatigue + a) 0 10 }).InBoundsSlack := by
  obtain ⟨h1, h2, h3, h4, h5, h6, h7, h8, h9, h10, h11, h12, h13⟩ := c.clamp_InBounds
  refine ⟨h1, ?_, ?_, le_rclamp _ _ _, rclamp_le _ _ _ (by norm_num),
    h6, h7, h8, h9, h10, h11, h12, h13⟩
  · show -10 ≤ c.clamp.momentum + b
    linarith
  · show c.clamp.momentum + b ≤ (103/10)
    linarith

theorem debate_clears_prepared (gs : GameState) (rl : ℚ → ℚ → ℚ) (u1 u2 : ℚ) :
    (debate gs rl u1 u2).prepared = false :=
  rfl

/-! The claim theorems. -/

/-- Claim C1: every call to the shift operator `apply_support_shift(state,
delta, reason, demo_weights)` gives each demographic key `d` exactly
`shift = delta * amp * weight(d) + pull * district.demos[d]`, with
`amp = volatility * (1 + 0.15*media_intensity)` and
`pull = partisan_lean * 0.010`; the shift is added to the existing per-demo
support and the result is clamped to `[0.20, 0.80]` for every demographic. -/
theorem apply_support_shift_spec (gs : GameState) (delta : ℚ) (reason : String)
    (demo_weights : Option DemoMap) (d : Demo) :
    (apply_support_shift gs delta reason demo_weights).support_by_demo.get d
      = rclamp (gs.support_by_demo.get d
          + (delta * (gs.district.volatility * (1 + (15/100) * gs.district.media_intensity))
              * (demo_weights.getD DemoMap.uniform).get d
            + gs.district.partisan_lean * (10/1000) * gs.district.demos.get d)) (20/100) (80/100)
    ∧ (20/100) ≤ (apply_support_shift gs delta reason demo_weights).support_by_demo.get d
    ∧ (apply_support_shift gs delta reason demo_weights).support_by_demo.get d ≤ (80/100) := by
  have heq : (apply_support_shift gs delta reason demo_weights).support_by_demo.get d
      = rclamp (gs.support_by_demo.get d
          + (delta * (gs.district.volatility * (1 + (15/100) * gs.district.media_intensity))
              * (demo_weights.getD DemoMap.uniform).get d
            + gs.district.partisan_lean * (10/1000) * gs.district.demos.get d)) (20/100) (80/100) := by
    cases d <;> rfl
  exact ⟨heq, heq ▸ le_rclamp _ _ _, heq ▸ rclamp_le _ _ _ (by norm_num)⟩

/-- Claim C9: weekly decay never increases fatigue — for every state within
the documented fatigue band `[0, 10]`, after `weekly_decay` the fatigue equals
`max(0, fatigue_before - 0.8)` and so is never larger than before. -/
theorem weekly_decay_fatigue (gs : GameState)
    (h0 : 0 ≤ gs.you.fatigue) (h10 : gs.you.fatigue ≤ 10) :
    (weekly_decay gs).you.fatigue = max 0 (gs.you.fatigue - (8/10)) ∧
    (weekly_decay gs).you.fatigue ≤ gs.you.fatigue := by
  have hf : (weekly_decay gs).you.fatigue
      = max 0 (min 10 (rclamp (gs.you.fatigue - (8/10)) 0 10)) := rfl
  have h1 : min (10 : ℚ) (gs.you.fatigue - (8/10)) = gs.you.fatigue - (8/10) :=
    min_eq_right (by linarith)
  have h2 : rclamp (gs.you.fatigue - (8/10)) 0 10 = max 0 (gs.you.fatigue - (8/10)) := by
    unfold rclamp
    rw [h1]
  have h3 : max (0 : ℚ) (gs.you.fatigue - (8/10)) ≤ 10 := max_le (by norm_num) (by linarith)
  have h4 : (0 : ℚ) ≤ max 0 (gs.you.fatigue - (8/10)) := le_max_left _ _
  have h5 : (weekly_decay gs).you.fatigue = max 0 (gs.you.fatigue - (8/10)) := by
    rw [hf, h2, min_eq_right h3, max_eq_right h4]
  exact ⟨h5, by rw [h5]; exact max_le h0 (by linarith)⟩

/-- Witness for C9 at a concrete state with fatigue 5. -/
theorem weekly_decay_fatigue_witness :
    (weekly_decay gsC9).you.fatigue = max 0 (gsC9.you.fatigue - (8/10)) ∧
    (weekly_decay gsC9).you.fatigue ≤ gsC9.you.fatigue :=
  weekly_decay_fatigue gsC9 (by decide) (by decide)

/-- Claim C6 counterexample: `earned_media = 0.5 > 0`, yet after
`earned_media_tick` the `earned_media` value is unchanged — the tick itself
applies no multiplicative decay (the `* 0.35` decay happens later in the week
inside `weekly_decay`). -/
theorem earned_media_tick_no_decay :
    0 < gsC6.earned_media ∧
    (earned_media_tick gsC6).earned_media = gsC6.earned_media ∧
    ¬ (earned_media_tick gsC6).earned_media < gsC6.earned_media :=
  ⟨by with_unfolding_all decide, by with_unfolding_all rfl, by with_unfolding_all decide⟩

/-- Claim C6 (amended): for every state with `earned_media > 0` the
earned-media tick applies a support bump proportional to `earned_media`
(factor 0.004) through the shift operator and logs it, leaving `earned_media`
itself unchanged; for `earned_media ≤ 0` the tick does nothing; the fixed
multiplicative decay (factor 0.35) of `earned_media` is applied separately by
`weekly_decay` in the same week, not within the tick. -/
theorem earned_media_tick_spec (gs : GameState) :
    (0 < gs.earned_media →
      earned_media_tick gs
        = (apply_support_shift gs ((4/1000) * gs.earned_media) ("Earned media tailwind") none).log
            ("Earned media effect this week: +" ++ ratStr ((4/1000) * gs.earned_media * 100)
              ++ "% support-ish.")
      ∧ (earned_media_tick gs).earned_media = gs.earned_media) ∧
    (gs.earned_media ≤ 0 → earned_media_tick gs = gs) ∧
    (weekly_decay gs).earned_media = gs.earned_media * (35/100) := by
  refine ⟨?_, ?_, rfl⟩
  · intro h
    have hne : ¬ gs.earned_media ≤ 0 := not_le.mpr h
    constructor
    · unfold earned_media_tick
      rw [if_neg hne]
    · unfold earned_media_tick
      rw [if_neg hne]
      rfl
  · intro h
    unfold earned_media_tick
    rw [if_pos h]

/-- Witness for C6's amended claim at a state with earned media 0.25. -/
theorem earned_media_tick_spec_witness :
    (earned_media_tick gsC6w).earned_media = gsC6w.earned_media ∧
    (weekly_decay gsC6w).earned_media = gsC6w.earned_media * (35/100) :=
  ⟨((earned_media_tick_spec gsC6w).1 (by with_unfolding_all decide)).2,
    (earned_media_tick_spec gsC6w).2.2⟩

/-- Claim C7: the paid-media auto-spend never exceeds the hard cap (20), never
brings cash below the floor (5), and spends nothing — leaving the whole state,
cash and support included, unchanged — whenever the computed spend
`min(hard_cap, affordable, cash/2)` falls below the minimum-worthwhile
threshold (3); in particular with cash = 4 the spend is 0 and cash stays 4. -/
theorem paid_media_spec (gs : GameState) :
    paid_media_spend gs ≤ 20 ∧
    (paid_media gs).you.cash = gs.you.cash - paid_media_spend gs ∧
    (0 < paid_media_spend gs → 5 ≤ (paid_media gs).you.cash) ∧
    (min 20 (min (max 0 (gs.you.cash - 5)) (gs.you.cash / 2)) < 3 → paid_media gs = gs) ∧
    (gs.you.cash = 4 → paid_media_spend gs = 0 ∧ paid_media gs = gs) := by
  by_cases h5 : gs.you.cash < 5
  · have hs0 : paid_media_spend gs = 0 := by
      unfold paid_media_spend
      rw [if_pos h5]
    have hpm : paid_media gs = gs := by
      unfold paid_media
      rw [if_pos h5]
    refine ⟨by rw [hs0]; norm_num, by rw [hs0, hpm]; omega, ?_, fun _ => hpm,
      fun _ => ⟨hs0, hpm⟩⟩
    intro hpos
    rw [hs0] at hpos
    exact absurd hpos (by norm_num)
  · have h5' : 5 ≤ gs.you.cash := by omega
    by_cases h3 : min 20 (min (max 0 (gs.you.cash - 5)) (gs.you.cash / 2)) < 3
    · have hs0 : paid_media_spend gs = 0 := by
        unfold paid_media_spend
        rw [if_neg h5]
        dsimp only
        rw [if_pos h3]
      have hpm : paid_media gs = gs := by
        unfold paid_media
        rw [if_neg h5]
        dsimp only
        rw [if_pos h3]
      refine ⟨by rw [hs0]; norm_num, by rw [hs0, hpm]; omega, ?_, fun _ => hpm, ?_⟩
      · intro hpos
        rw [hs0] at hpos
        exact absurd hpos (by norm_num)
      · intro h4
        omega
    · have hs : paid_media_spend gs
          = min 20 (min (max 0 (gs.you.cash - 5)) (gs.you.cash / 2)) := by
        unfold paid_media_spend
        rw [if_neg h5]
        dsimp only
        rw [if_neg h3]
      have hcash : (paid_media gs).you.cash
          = gs.you.cash - min 20 (min (max 0 (gs.you.cash - 5)) (gs.you.cash / 2)) := by
        unfold paid_media
        rw [if_neg h5]
        dsimp only
        rw [if_neg h3]
        simp only [GameState.log_you, apply_support_shift_you]
      have hle : paid_media_spend gs ≤ max 0 (gs.you.cash - 5) := by
        rw [hs]
        exact le_trans (min_le_right _ _) (min_le_left _ _)
      have hmax : max 0 (gs.you.cash - 5) = gs.you.cash - 5 := max_eq_right (by omega)
      have hge3 : 3 ≤ paid_media_spend gs := by
        rw [hs]
        omega
      refine ⟨by rw [hs]; exact min_le_left _ _, by rw [hcash, hs], ?_, fun hlt => absurd hlt h3,
        fun h4 => absurd h4 (by omega)⟩
      intro _
      rw [hcash, ← hs]
      rw [hmax] at hle
      omega

/-- Witness for C7 at the cash = 4 scenario from the spec. -/
theorem paid_media_spec_witness :
    paid_media_spend gsC7 = 0 ∧ paid_media gsC7 = gsC7 :=
  (paid_media_spec gsC7).2.2.2.2 rfl

/-- Claim C8 counterexample: the axis string `"ECON"` is not one of `econ`,
`social`, `governance`, `tone`, yet `adjust_policy` lowercases it and mutates
the econ axis from 50 to 58 (and adds momentum), because validity is checked
only after normalization. -/
theorem adjust_policy_uppercase_axis :
    ("ECON" ≠ "econ" ∧ "ECON" ≠ "social" ∧ "ECON" ≠ "governance" ∧ "ECON" ≠ "tone") ∧
    sampleState.you.econ = 50 ∧
    (adjust_policy sampleState ("ECON") 1).you.econ = 58 :=
  ⟨by decide, rfl, by with_unfolding_all decide⟩

/-- Claim C8 (amended): for every state and every axis string whose trimmed,
lowercased form is not one of `econ`, `social`, `governance`, `tone`, the
policy-shift resolver mutates no candidate field and no other game state; its
only effect is appending the one log entry to the history. -/
theorem adjust_policy_invalid_noop (gs : GameState) (axis : String) (direction : ℤ)
    (h : ¬(axis.toLower.trim = "econ" ∨ axis.toLower.trim = "social" ∨
          axis.toLower.trim = "governance" ∨ axis.toLower.trim = "tone")) :
    adjust_policy gs axis direction = gs.log ("Policy team is confused. Nothing changes.") ∧
    (adjust_policy gs axis direction).you = gs.you ∧
    (adjust_policy gs axis direction).support_by_demo = gs.support_by_demo ∧
    (adjust_policy gs axis direction).history
      = gs.history ++ ["Policy team is confused. Nothing changes."] := by
  have he : adjust_policy gs axis direction
      = gs.log ("Policy team is confused. Nothing changes.") := by
    unfold adjust_policy
    rw [if_neg h]
  exact ⟨he, by rw [he]; rfl, by rw [he]; rfl, by rw [he]; rfl⟩

/-- Witness for C8's amended claim with the unrecognized axis `"foreign"`. -/
theorem adjust_policy_invalid_noop_witness :
    (adjust_policy sampleState ("foreign") 1).you = sampleState.you ∧
    (adjust_policy sampleState ("foreign") 1).history
      = sampleState.history ++ ["Policy team is confused. Nothing changes."] :=
  ⟨(adjust_policy_invalid_noop sampleState ("foreign") 1 (by with_unfolding_all decide)).2.1,
    (adjust_policy_invalid_noop sampleState ("foreign") 1 (by with_unfolding_all decide)).2.2.2⟩

/-- Claim C2 counterexample: a candidate with every field inside its
documented bound and momentum exactly 10 comes out of the `rest` resolver with
momentum 10.3 > 10 — `rest` adds its momentum bonus without a following clamp
pass. -/
theorem rest_momentum_counterexample :
    gsC2.you.InBounds ∧
    (rest gsC2).you.momentum = (103/10) ∧
    ¬ (rest gsC2).you.momentum ≤ 10 :=
  ⟨by decide, by with_unfolding_all rfl, by with_unfolding_all decide⟩

/-- Claim C2 (amended): for every starting state whose candidate fields are
within their documented bounds, after `fundraise` or `polling` every candidate
field is again within its documented bound; after `canvass`, `adjust_policy`,
`prep_debate` or `rest`, cash, fatigue and all four platform axes stay within
their bounds and momentum stays within `[-10, 10.3]` — these four resolvers
add a momentum bonus (at most 0.3, from `rest`) after (or without) the clamp
pass, so momentum can exceed 10 by at most that bonus until the next clamp
(for example in `weekly_decay`). -/
theorem resolver_bounds (gs : GameState) (h : gs.you.InBounds) :
    (∀ donor_type rl, (fundraise gs donor_type rl).you.InBounds) ∧
    (polling gs).you.InBounds ∧
    (canvass gs).you.InBoundsSlack ∧
    (∀ axis direction, (adjust_policy gs axis direction).you.InBoundsSlack) ∧
    (prep_debate gs).you.InBoundsSlack ∧
    (rest gs).you.InBoundsSlack := by
  obtain ⟨h1, h2, h3, h4, h5, h6, h7, h8, h9, h10, h11, h12, h13⟩ := h
  refine ⟨?_, ?_, ?_, ?_, ?_, ?_⟩
  · intro donor_type rl
    exact Candidate.clamp_InBounds _
  · unfold polling
    split_ifs with hc
    · exact ⟨h1, h2, h3, h4, h5, h6, h7, h8, h9, h10, h11, h12, h13⟩
    · refine ⟨?_, h2, h3, h4, h5, h6, h7, h8, h9, h10, h11, h12, h13⟩
      show 0 ≤ gs.you.cash - 6
      omega
  · unfold canvass
    split_ifs with hc
    · refine ⟨h1, h2, ?_, h4, h5, h6, h7, h8, h9, h10, h11, h12, h13⟩
      show gs.you.momentum ≤ (103/10)
      linarith
    · refine ⟨?_, ?_, ?_, ?_, ?_, h6, h7, h8, h9, h10, h11, h12, h13⟩
      · show 0 ≤ gs.you.cash - 8
        omega
      · show -10 ≤ gs.you.momentum + (2/10)
        linarith
      · show gs.you.momentum + (2/10) ≤ (103/10)
        linarith
      · exact le_rclamp _ _ _
      · exact rclamp_le _ _ _ (by norm_num)
  · intro axis direction
    by_cases hax : axis.toLower.trim = "econ" ∨ axis.toLower.trim = "social" ∨
        axis.toLower.trim = "governance" ∨ axis.toLower.trim = "tone"
    · unfold adjust_policy
      rw [if_pos hax]
      exact Candidate.clamp_bonus_slack _ (15/100) (8/10) (by norm_num) (by norm_num)
    · unfold adjust_policy
      rw [if_neg hax]
      refine ⟨h1, h2, ?_, h4, h5, h6, h7, h8, h9, h10, h11, h12, h13⟩
      show gs.you.momentum ≤ (103/10)
      linarith
  · refine ⟨h1, ?_, ?_, ?_, ?_, h6, h7, h8, h9, h10, h11, h12, h13⟩
    · show -10 ≤ gs.you.momentum + (10/100)
      linarith
    · show gs.you.momentum + (10/100) ≤ (103/10)
      linarith
    · exact le_rclamp _ _ _
    · exact rclamp_le _ _ _ (by norm_num)
  · refine ⟨h1, ?_, ?_, ?_, ?_, h6, h7, h8, h9, h10, h11, h12, h13⟩
    · show -10 ≤ gs.you.momentum + (3/10)
      linarith
    · show gs.you.momentum + (3/10) ≤ (103/10)
      linarith
    · exact le_rclamp _ _ _
    · exact rclamp_le _ _ _ (by norm_num)

/-- Witness for C2's amended claim at a concrete in-bounds state. -/
theorem resolver_bounds_witness :
    (rest sampleState).you.InBoundsSlack ∧ (polling sampleState).you.InBounds :=
  ⟨(resolver_bounds sampleState (by decide)).2.2.2.2.2,
    (resolver_bounds sampleState (by decide)).2.1⟩

/-- Claim C5: for every state and every draw of the randomness, running the
Debate Resolver leaves `prepared = false` regardless of the outcome band; the
fixed prep bonus (+6.0) is added to `you_power` if and only if `prepared` was
true on entry (the resolver runs with power `base + 6` exactly when the flag
was set); hence a second consecutive debate without an intervening debate-prep
action runs with the unboosted base power. -/
theorem debate_prep_consumption (gs : GameState) (rl : ℚ → ℚ → ℚ) (u1 u2 : ℚ) :
    (debate gs rl u1 u2).prepared = false ∧
    debate gs rl u1 u2
      = debate_with_power gs (debate_base_power gs.you + (if gs.prepared then 6 else 0))
          rl u1 u2 ∧
    (∀ rl2 v1 v2,
      debate (debate gs rl u1 u2) rl2 v1 v2
        = debate_with_power (debate gs rl u1 u2)
            (debate_base_power (debate gs rl u1 u2).you) rl2 v1 v2) := by
  refine ⟨debate_clears_prepared gs rl u1 u2, rfl, ?_⟩
  intro rl2 v1 v2
  show debate_with_power (debate gs rl u1 u2)
      (debate_base_power (debate gs rl u1 u2).you +
        (if (debate gs rl u1 u2).prepared then 6 else 0)) rl2 v1 v2 = _
  rw [debate_clears_prepared]
  simp

/-- Claim C3: for every state reaching the Primary→General transition with
overall support ≥ 0.50, the transition sets week to 1 and weeks_in_phase to 8,
regenerates the opponent via `gen_opponent("GENERAL")`, resets earned_media to
0, and sets the support ledger to exactly a fresh
`initial_support_by_demo(district, candidate)` on the current platform,
regardless of the pre-transition ledger contents. -/
theorem phase_transition_primary_win (gs : GameState) (i : Fin 3) (j : Fin 5)
    (rl : ℚ → ℚ → ℚ) (hp : gs.phase = "PRIMARY")
    (hs : ¬ overall_support gs.district gs.support_by_demo < (50/100)) :
    phase_transition gs i j rl = WeekOutcome.ongoing { gs with
      phase := "GENERAL"
      week := 1
      weeks_in_phase := 8
      opponent := gen_opponent ("GENERAL") i j
      support_by_demo := initial_support_by_demo gs.district gs.you
      earned_media := 0
      history := gs.history ++ ["New opponent: " ++ (gen_opponent ("GENERAL") i j).name ++
        " (" ++ (gen_opponent ("GENERAL") i j).archetype ++ ", skill " ++
        toString (gen_opponent ("GENERAL") i j).skill ++ ")"] } := by
  unfold phase_transition
  rw [hp]
  rw [if_pos rfl]
  dsimp only
  rw [if_neg hs]

/-- Witness for C3 at a state whose pre-transition ledger holds 0.8 for every
demographic (overall support 0.8 ≥ 0.50). -/
theorem phase_transition_primary_win_witness :
    phase_transition gsC3 0 0 (fun _ _ => 0) = WeekOutcome.ongoing { gsC3 with
      phase := "GENERAL"
      week := 1
      weeks_in_phase := 8
      opponent := gen_opponent ("GENERAL") 0 0
      support_by_demo := initial_support_by_demo gsC3.district gsC3.you
      earned_media := 0
      history := gsC3.history ++ ["New opponent: " ++ (gen_opponent ("GENERAL") 0 0).name ++
        " (" ++ (gen_opponent ("GENERAL") 0 0).archetype ++ ", skill " ++
        toString (gen_opponent ("GENERAL") 0 0).skill ++ ")"] } :=
  phase_transition_primary_win gsC3 0 0 (fun _ _ => 0) rfl (by with_unfolding_all decide)

/-- Claim C4: for every Primary-phase state whose week counter exceeds
weeks_in_phase after the weekly increment and whose overall support is below
0.50, advancing the week yields the `primary_loss` terminal outcome carrying
the state unchanged apart from the increment — no transition to the General
phase and no further state mutation. -/
theorem advance_week_primary_loss (gs : GameState) (i : Fin 3) (j : Fin 5)
    (rl : ℚ → ℚ → ℚ) (hp : gs.phase = "PRIMARY")
    (hw : gs.weeks_in_phase < gs.week + 1)
    (hs : overall_support gs.district gs.support_by_demo < (50/100)) :
    advance_week gs i j rl = WeekOutcome.primary_loss { gs with week := gs.week + 1 } := by
  unfold advance_week phase_transition
  dsimp only
  rw [if_pos hw, if_pos hp, if_pos hs]

/-- Witness for C4 at a concrete week-6 Primary state with overall support
0.3. -/
theorem advance_week_primary_loss_witness :
    advance_week gsC4 0 0 (fun _ _ => 0)
      = WeekOutcome.primary_loss { gsC4 with week := gsC4.week + 1 } :=
  advance_week_primary_loss gsC4 0 0 (fun _ _ => 0) rfl (by decide)
    (by with_unfolding_all decide)

/-- Claim C10: for every state and donor_type string that normalizes (trim and
lowercase) to neither `corporate` nor `grassroots`, the fundraise resolver
behaves exactly as the `mixed` kind: identical resulting state for the same
draw, a non-negative cash amount added (cash never decreases), momentum and
enthusiasm unchanged (within documented momentum bounds), and fatigue raised
by 1 (clamped into `[0, 10]`; exactly +1 whenever fatigue ≤ 9). -/
theorem fundraise_unrecognized (gs : GameState) (donor_type : String) (rl : ℚ → ℚ → ℚ)
    (hc : donor_type.toLower.trim ≠ "corporate")
    (hg : donor_type.toLower.trim ≠ "grassroots")
    (hm1 : -10 ≤ gs.you.momentum) (hm2 : gs.you.momentum ≤ 10) :
    fundraise gs donor_type rl = fundraise gs ("mixed") rl ∧
    gs.you.cash ≤ (fundraise gs donor_type rl).you.cash ∧
    (fundraise gs donor_type rl).you.momentum = gs.you.momentum ∧
    (fundraise gs donor_type rl).enthusiasm = gs.enthusiasm ∧
    (0 ≤ gs.you.fatigue → gs.you.fatigue ≤ 9 →
      (fundraise gs donor_type rl).you.fatigue = gs.you.fatigue + 1) := by
  have hmc : ("mixed" : String).toLower.trim ≠ "corporate" := by with_unfolding_all decide
  have hmg : ("mixed" : String).toLower.trim ≠ "grassroots" := by with_unfolding_all decide
  have helse : ∀ d : String, d.toLower.trim ≠ "corporate" → d.toLower.trim ≠ "grassroots" →
      fundraise gs d rl =
        (let base : ℚ := 12 + (gs.you.discipline : ℚ) * (25/100) + gs.name_id * 20
         let cash : ℤ := ⌊max 0 (rl base 5)⌋
         let gsa := { gs with you := { gs.you with cash := gs.you.cash + cash } }
         let gsb := gsa.log ("Fundraising (mixed): +$" ++ toString cash ++ "k.")
         let gsc := { gsb with
           you := { gsb.you with fatigue := rclamp (gsb.you.fatigue + 1) 0 10 } }
         { gsc with you := gsc.you.clamp }) := by
    intro d hd1 hd2
    unfold fundraise
    dsimp only
    rw [if_neg hd1, if_neg hd2]
  have hfloor : (0 : ℤ) ≤ ⌊max 0 (rl (12 + (gs.you.discipline : ℚ) * (25/100) +
      gs.name_id * 20) 5)⌋ :=
    Int.floor_nonneg.mpr (le_max_left _ _)
  refine ⟨by rw [helse donor_type hc hg, helse ("mixed") hmc hmg], ?_, ?_, ?_, ?_⟩
  · rw [helse donor_type hc hg]
    show gs.you.cash ≤ max 0 (gs.you.cash + ⌊max 0 (rl (12 + (gs.you.discipline : ℚ) *
      (25/100) + gs.name_id * 20) 5)⌋)
    refine le_trans ?_ (le_max_right _ _)
    omega
  · rw [helse donor_type hc hg]
    show max (-10 : ℚ) (min 10 gs.you.momentum) = gs.you.momentum
    rw [min_eq_right hm2, max_eq_right hm1]
  · rw [helse donor_type hc hg]
    rfl
  · intro hf0 hf9
    rw [helse donor_type hc hg]
    show max 0 (min 10 (rclamp (gs.you.fatigue + 1) 0 10)) = gs.you.fatigue + 1
    have e1 : rclamp (gs.you.fatigue + 1) 0 10 = gs.you.fatigue + 1 := by
      unfold rclamp
      rw [min_eq_right (by linarith), max_eq_right (by linarith)]
    rw [e1, min_eq_right (by linarith), max_eq_right (by linarith)]

/-- Witness for C10 with the unrecognized donor kind `"small-dollar"` and a
concrete draw oracle. -/
theorem fundraise_unrecognized_witness :
    fundraise sampleState ("small-dollar") (fun mu _ => mu)
      = fundraise sampleState ("mixed") (fun mu _ => mu) ∧
    (fundraise sampleState ("small-dollar") (fun mu _ => mu)).you.momentum
      = sampleState.you.momentum :=
  ⟨(fundraise_unrecognized sampleState ("small-dollar") (fun mu _ => mu)
      (by with_unfolding_all decide) (by with_unfolding_all decide)
      (by decide) (by decide)).1,
    (fundraise_unrecognized sampleState ("small-dollar") (fun mu _ => mu)
      (by with_unfolding_all decide) (by with_unfolding_all decide)
      (by decide) (by decide)).2.2.1⟩

end CampaignHero
